import Mathlib

/-!
Verification of the DINOv3 image-retrieval front end (src/unnamed/part_000,
with src/app/page.tsx an earlier variant whose shared functions differ only in
status-string literals). The development shallowly embeds the data model, the
pure response decoders, the session-controller event handlers and the
connection manager, and settles the frozen claims about them.

Conventions of the embedding:
* JavaScript strings are Lean `String`s; regular-expression matching of the
  three fixed pattern shapes used by the code is implemented over `List Char`
  with leftmost-match, greedy-capture semantics.
* `parseFloat` is modelled by `jsParseFloat`, returning `Option Rat` with
  `none` standing for NaN (the only captures the code feeds it are runs of
  digits and dots, for which no exponent or sign handling is needed).
* The asynchronous handlers are modelled as atomic state-transition segments
  separated at their `await` suspension points; an execution is a list of such
  events folded over the component state.
-/

/-! ## Data model (src/unnamed/part_000 lines 12-29) -/

/-- `interface GradioImageData { url?: string; path?: string; }` -/
structure GradioImageData where
  url : Option String
  path : Option String
deriving DecidableEq

/-- `interface GradioImage { image?: GradioImageData; url?; path?; caption?; }` -/
structure GradioImage where
  image : Option GradioImageData
  url : Option String
  path : Option String
  caption : Option String
deriving DecidableEq

/-- The nested object of `ParsedStats` holding the four recall fields (named
`recall` in the source; `recallAt` here because that word is a Lean command token). Numeric fields are
`Option Rat`, with `none` standing for the JavaScript NaN. -/
structure RecallStats where
  r1 : Option Rat
  r5 : Option Rat
  r10 : Option Rat
  r100 : Option Rat
deriving DecidableEq

/-- `interface ParsedStats` (src/unnamed/part_000 lines 21-25). -/
structure ParsedStats where
  precision : Option Rat
  mapR : Option Rat
  recallAt : RecallStats
  embeddings : String
  dim : Nat
deriving DecidableEq

/-! ## Regex model

The code uses exactly three regex shapes: `LIT([\d.]+)%` for the six
percentage fields, and `LIT(\d+)` for the two integer fields, each used with
`String.prototype.match` (first match, capture group 1). -/

/-- A digit or a dot: the character class `[\d.]`. -/
def isDigitDot (c : Char) : Bool := c.isDigit || c == '.'

/-- Value of a digit string, most significant first. -/
def natOfDigits (cs : List Char) : Nat :=
  cs.foldl (fun a c => 10 * a + (c.toNat - 48)) 0

/-- Match of `LIT([\d.]+)%` anchored at the start of `cs`: the literal, then a
non-empty greedy run of `[\d.]`, then `%`. Since `%` is not in `[\d.]`, the
greedy capture with backtracking succeeds exactly when the character right
after the maximal run is `%`, capturing the whole run. -/
def percentAt (lit : List Char) (cs : List Char) : Option (List Char) :=
  if lit.isPrefixOf cs then
    let rest := cs.drop lit.length
    let cap := rest.takeWhile isDigitDot
    match cap, rest.drop cap.length with
    | [], _ => none
    | c :: t, '%' :: _ => some (c :: t)
    | _ :: _, _ => none
  else none

/-- Match of `LIT(\d+)` anchored at the start of `cs`: the literal, then a
non-empty greedy run of digits. -/
def intAt (lit : List Char) (cs : List Char) : Option (List Char) :=
  if lit.isPrefixOf cs then
    match (cs.drop lit.length).takeWhile Char.isDigit with
    | [] => none
    | c :: t => some (c :: t)
  else none

/-- Leftmost match: try the anchored matcher at every start position, left to
right, as `String.prototype.match` does for a non-global regex. -/
def scanFirst (f : List Char → Option (List Char)) : List Char → Option (List Char)
  | [] => f []
  | c :: t =>
    match f (c :: t) with
    | some r => some r
    | none => scanFirst f t

/-- `parseFloat` on a run of digits and dots: longest valid decimal prefix
(`digits`, `digits.digits`, `digits.` or `.digits`); `none` models NaN (for
example on `"..."`). The decimal is represented exactly as a rational,
`intpart.fracpart = (intpart * 10 ^ k + fracpart) / 10 ^ k`. Exponents and
signs never occur in the captures the code produces, so they are not
modelled. -/
def jsParseFloat (cs : List Char) : Option Rat :=
  let ip := cs.takeWhile Char.isDigit
  match cs.drop ip.length with
  | '.' :: r2 =>
    let fp := r2.takeWhile Char.isDigit
    if ip.isEmpty && fp.isEmpty then none
    else some (mkRat (natOfDigits ip * 10 ^ fp.length + natOfDigits fp) (10 ^ fp.length))
  | _ => if ip.isEmpty then none else some (natOfDigits ip : Rat)

/-! ## Response decoders (src/unnamed/part_000 lines 55-85) -/

/-- `getNum` inside `parseStats`: `const match = raw.match(regex); return
match ? parseFloat(match[1]) : 0;` for the percentage regexes. -/
def getNum (lit : String) (raw : String) : Option Rat :=
  match scanFirst (percentAt lit.data) raw.data with
  | some cap => jsParseFloat cap
  | none => some 0

/-- `parseStats` (src/unnamed/part_000 lines 68-85). The `try`/`catch`
wrapper is unreachable (no operation in the body throws), so the function
always yields `some` structure; the `Option` mirrors the declared
`ParsedStats | null` return type. -/
def parseStats (raw : String) : Option ParsedStats :=
  some {
    precision := getNum "Precision@1: " raw
    mapR := getNum "MAP@R: " raw
    recallAt := {
      r1 := getNum "R@1: " raw
      r5 := getNum "R@5: " raw
      r10 := getNum "R@10: " raw
      r100 := getNum "R@100: " raw }
    embeddings := String.mk ((scanFirst (intAt "Total embeddings: ".data) raw.data).getD [ '0' ])
    dim := natOfDigits ((scanFirst (intAt "Embedding dimension: ".data) raw.data).getD [ '0' ]) }

/-- Spec-side per-field extractor (spec 4.1: each field is matched
independently; a missing field yields 0 for that field alone). -/
def decodeMetricsPercent (lit : String) (raw : String) : Option Rat :=
  match scanFirst (percentAt lit.data) raw.data with
  | some cap => jsParseFloat cap
  | none => some 0

/-- Spec-side extractor for the textual embeddings-count field: the captured
digits, or the textual default. -/
def decodeMetricsCount (raw : String) : String :=
  String.mk ((scanFirst (intAt "Total embeddings: ".data) raw.data).getD [ '0' ])

/-- Spec-side extractor for the embedding-dimension field. -/
def decodeMetricsDim (raw : String) : Nat :=
  natOfDigits ((scanFirst (intAt "Embedding dimension: ".data) raw.data).getD [ '0' ])

/-- Removal of the first occurrence of `pat` anywhere in the string, the
semantics of `String.prototype.replace(pat, "")` for a string pattern. -/
def removeFirst (pat : List Char) : List Char → List Char
  | [] => []
  | c :: t =>
    if pat.isPrefixOf (c :: t) then (c :: t).drop pat.length
    else c :: removeFirst pat t

/-- String wrapper for `removeFirst`. -/
def replaceFirst (pat s : String) : String := String.mk (removeFirst pat.data s.data)

/-- The display pair produced by `parseCaption`. -/
structure Caption where
  className : String
  sim : String
deriving DecidableEq

/-- `String.prototype.split` with the single-character separator newline:
between-separator segments, keeping empty segments, always at least one. -/
def splitNl : List Char → List (List Char)
  | [] => [[]]
  | c :: t =>
    if c = '\n' then [] :: splitNl t
    else
      match splitNl t with
      | h :: r => (c :: h) :: r
      | [] => [[c]]

/-- String wrapper for `splitNl`: `caption.split("\n")`. -/
def jsSplitNewline (s : String) : List String := (splitNl s.data).map String.mk

/-- `parseCaption` (src/unnamed/part_000 lines 60-66). `!caption` is true for
an absent argument and for the empty string; `split("\n")` always yields at
least one part, so `parts[0]` is never absent; `|| "Unknown"` and
`|| "0.000"` fire when the replaced segment is empty or segment 2 is
absent. -/
def parseCaption (caption : Option String) : Caption :=
  match caption with
  | none => ⟨"Unknown", "0.000"⟩
  | some c =>
    if c = "" then ⟨"Unknown", "0.000"⟩
    else
      let parts := jsSplitNewline c
      let cn := replaceFirst "Label: " (replaceFirst "Class: " (parts.headD ""))
      let className := if cn = "" then "Unknown" else cn
      let sim :=
        match parts[1]? with
        | none => "0.000"
        | some p1 =>
          let t := replaceFirst "Sim: " p1
          if t = "" then "0.000" else t
      ⟨className, sim⟩

/-- Spec-side label decoding as the code actually behaves: first occurrence of
`"Class: "` removed, then first occurrence of `"Label: "` removed, with the
`"Unknown"` fallback when the result is empty. -/
def decodeCaptionLabel (seg : String) : String :=
  let t := replaceFirst "Label: " (replaceFirst "Class: " seg)
  if t = "" then "Unknown" else t

/-- Spec-side similarity decoding as the code actually behaves: first
occurrence of `"Sim: "` removed from segment 2, with the `"0.000"` fallback
when segment 2 is missing or the result is empty. -/
def decodeCaptionSim : Option String → String
  | none => "0.000"
  | some p =>
    let t := replaceFirst "Sim: " p
    if t = "" then "0.000" else t

/-! ## URL resolution (src/unnamed/part_000 lines 55-58) -/

/-- One step of the JavaScript `||` chain ending in a string: a possibly
absent string on the left (absent and empty are both falsy), a string
fallback on the right. -/
def jsStrOr (a : Option String) (b : String) : String :=
  match a with
  | none => b
  | some s => if s = "" then b else s

/-- `getImageUrl`: `if (!item) return ""; return item.image?.url ||
item.image?.path || item.url || item.path || "";`. -/
def getImageUrl (item : Option GradioImage) : String :=
  match item with
  | none => ""
  | some it =>
    jsStrOr (it.image.bind GradioImageData.url)
      (jsStrOr (it.image.bind GradioImageData.path)
        (jsStrOr it.url (jsStrOr it.path "")))

/-- Spec-side resolver: first present, non-empty value in priority order,
empty string when none qualifies. -/
def firstPresentNonEmpty : List (Option String) → String
  | [] => ""
  | none :: t => firstPresentNonEmpty t
  | some s :: t => if s = "" then firstPresentNonEmpty t else s

/-! ## Session controller (src/unnamed/part_000 lines 31-181)

The React component state and its asynchronous handlers, modelled as a state
machine. Each event below is one synchronous segment of a handler: the code
between two `await` suspension points runs atomically on the event loop, and
an execution of the component is an arbitrary interleaving of such segments,
one list fold. -/

/-- The outcome with which an awaited backend call settles. -/
inductive Outcome (α : Type) where
  | ok (val : α)
  | err
deriving DecidableEq

/-- A search query: `source: GradioImage | File | Blob` of `handleSearch`.
Raw binaries (File/Blob) are identified by an opaque numeric id. -/
inductive Source where
  | ref (img : GradioImage)
  | blob (b : Nat)

/-- Model of `URL.createObjectURL`: a URL derived from the raw binary. -/
def createObjectURL (b : Nat) : String := "blob:" ++ toString b

/-- The preview computed synchronously by `handleSearch` (lines 136-141):
an object URL for a raw File/Blob, `getImageUrl` for an image reference. -/
def previewOf : Source → String
  | .ref img => getImageUrl (some img)
  | .blob b => createObjectURL b

/-- The component state (`useState` hooks, src/unnamed/part_000 lines 32-50;
presentation-only fields such as the active tab are omitted). -/
structure AppState where
  dataset : String
  size : String
  isFinetuned : Bool
  topK : Nat
  status : String
  stats : Option ParsedStats
  examples : List GradioImage
  results : List GradioImage
  activeQuery : Option String
  isLoading : Bool
  isExamplesLoading : Bool
  isSearching : Bool

/-- The initial state (the `useState` initializers). -/
def initState : AppState :=
  { dataset := "Cars196", size := "b", isFinetuned := false, topK := 10
    status := "Initializing...", stats := none, examples := [], results := []
    activeQuery := none, isLoading := false, isExamplesLoading := false
    isSearching := false }

/-- Atomic segments of the handlers (src/unnamed/part_000):
* `searchStart src`: `handleSearch` lines 133-142, the synchronous prefix up
  to the first `await`.
* `searchSettle out`: `handleSearch` lines 155-163, the segment run when the
  `predict` promise settles (`catch` and `finally` included); note it applies
  the response unconditionally.
* `examplesStart`: `refreshExamples` line 98 (up to its first `await`).
* `examplesSettle out`: `refreshExamples` lines 102-108; a failure is only
  logged, and `finally` clears the flag.
* `setDataset d`: the dataset selector; the `useEffect` on line 181 then
  issues a `loadStart`.
* `loadStart`: `loadResources` lines 112-113.
* `loadSettle out`: on success lines 120-124 up to the `await` inside the
  nested `refreshExamples` call (which sets its flag synchronously); on
  failure the contiguous `catch`/`finally` lines 126-128.
* `loadFinish`: the `finally` of a successful load, run after the nested
  example refresh settles. -/
inductive Event where
  | searchStart (src : Source)
  | searchSettle (out : Outcome (List GradioImage × String))
  | examplesStart
  | examplesSettle (out : Outcome (Option (List GradioImage)))
  | setDataset (d : String)
  | loadStart
  | loadSettle (out : Outcome (String × String))
  | loadFinish

/-- The state change each atomic segment performs, transcribed from
src/unnamed/part_000 (see `Event` for the line map). -/
def applyEvent (s : AppState) : Event → AppState
  | .searchStart src =>
    { s with isSearching := true, status := "Analyzing Visual Semantics..."
             activeQuery := some (previewOf src) }
  | .searchSettle (.ok d) =>
    { s with results := d.1, status := d.2, isSearching := false }
  | .searchSettle .err =>
    { s with status := "Search Failed", isSearching := false }
  | .examplesStart => { s with isExamplesLoading := true }
  | .examplesSettle (.ok o) =>
    { s with examples := o.getD [], isExamplesLoading := false }
  | .examplesSettle .err => { s with isExamplesLoading := false }
  | .setDataset d => { s with dataset := d }
  | .loadStart =>
    { s with isLoading := true, status := "Downloading Weights & Mapping..." }
  | .loadSettle (.ok d) =>
    { s with status := d.1, stats := parseStats d.2, isExamplesLoading := true }
  | .loadSettle .err => { s with status := "Sync Failed", isLoading := false }
  | .loadFinish => { s with isLoading := false }

/-- An execution: the fold of an interleaving of handler segments. -/
def runTrace (s : AppState) (t : List Event) : AppState := t.foldl applyEvent s

/-! ## Connection manager (src/unnamed/part_000 lines 87-92)

`getGradioClient` checks `clientRef.current`, and if it is empty awaits
`Client.connect` and then stores and returns the result; the `await` is a
suspension point between the check and the store. Connection handles are
opaque numeric ids; caller ids distinguish concurrent invocations. -/

/-- Connection-manager state: the memoized ref, how many establishment
attempts were started, which callers are awaiting their own `Client.connect`,
and what each finished call returned (or threw). -/
structure CMState where
  cache : Option Nat
  attempts : Nat
  waiting : List Nat
  returned : List (Nat × Outcome Nat)
deriving DecidableEq

/-- Scheduler events for the connection manager: a caller invokes
`getGradioClient`, or the `Client.connect` a waiting caller started settles
with a handle or with a failure. -/
inductive CMEvent where
  | call (id : Nat)
  | resolve (id : Nat) (c : Nat)
  | reject (id : Nat)

/-- One scheduler step, transcribed from src/unnamed/part_000 lines 87-92:
a call finding the ref set returns it at once; a call finding it empty starts
its own `Client.connect` and suspends; a settlement of that connect stores
the handle (unconditionally overwriting the ref) and returns it, or
propagates the failure without touching the ref. -/
def cmStep (s : CMState) : CMEvent → CMState
  | .call id =>
    match s.cache with
    | some c => { s with returned := s.returned ++ [(id, .ok c)] }
    | none => { s with attempts := s.attempts + 1, waiting := s.waiting ++ [id] }
  | .resolve id c =>
    if id ∈ s.waiting then
      { s with cache := some c, waiting := s.waiting.erase id
               returned := s.returned ++ [(id, .ok c)] }
    else s
  | .reject id =>
    if id ∈ s.waiting then
      { s with waiting := s.waiting.erase id, returned := s.returned ++ [(id, .err)] }
    else s

/-- Connection-manager execution: fold of a schedule. -/
def cmRun (s : CMState) (t : List CMEvent) : CMState := t.foldl cmStep s

/-- The manager before any call: empty ref, nothing attempted. -/
def cmInit : CMState := { cache := none, attempts := 0, waiting := [], returned := [] }

/-! ## Theorems -/

/-- Helper: the right-nested JavaScript falsy-or chain ending in the empty
string picks the first present, non-empty value of the list. -/
theorem foldr_jsStrOr (l : List (Option String)) :
    l.foldr jsStrOr "" = firstPresentNonEmpty l := by
  induction l with
  | nil => rfl
  | cons a t ih =>
    cases a with
    | none => simpa [jsStrOr, firstPresentNonEmpty] using ih
    | some s =>
      by_cases hs : s = "" <;> simp [jsStrOr, firstPresentNonEmpty, hs, ih]

/-- Claim C10 (confirmed): `getImageUrl` is total and returns the first
present, non-empty value in the priority order nested `image.url`, nested
`image.path`, top-level `url`, top-level `path`, and the empty string for a
null record or when no field qualifies. -/
theorem claim_C10 :
    getImageUrl none = "" ∧
    ∀ it : GradioImage,
      getImageUrl (some it) =
        firstPresentNonEmpty
          [it.image.bind GradioImageData.url, it.image.bind GradioImageData.path,
           it.url, it.path] := by
  refine ⟨rfl, fun it => ?_⟩
  exact foldr_jsStrOr
    [it.image.bind GradioImageData.url, it.image.bind GradioImageData.path, it.url, it.path]

/-- Claim C4 (confirmed): `parseStats` always returns a structure (the
`catch` branch is unreachable), each of the eight fields is extracted by an
independent pattern match against its own labeled pattern, a present pattern
yields its parsed numeric value and an absent pattern yields 0 (the string
"0" for the textual embeddings field) without affecting the other fields;
exercised on a raw text with three fields present and five absent, and on a
text with no field present. -/
theorem claim_C4 :
    (∀ raw : String, (parseStats raw).isSome = true) ∧
    (∀ raw : String,
      parseStats raw = some {
        precision := decodeMetricsPercent "Precision@1: " raw
        mapR := decodeMetricsPercent "MAP@R: " raw
        recallAt := {
          r1 := decodeMetricsPercent "R@1: " raw
          r5 := decodeMetricsPercent "R@5: " raw
          r10 := decodeMetricsPercent "R@10: " raw
          r100 := decodeMetricsPercent "R@100: " raw }
        embeddings := decodeMetricsCount raw
        dim := decodeMetricsDim raw }) ∧
    parseStats "Precision@1: 87.350%\nMAP@R: 45.1%\nR@1: 91.200%\nTotal embeddings: 8131\nEmbedding dimension: 768" =
      some { precision := some (mkRat 8735 100), mapR := some (mkRat 451 10)
             recallAt := { r1 := some (mkRat 912 10), r5 := some 0, r10 := some 0, r100 := some 0 }
             embeddings := "8131", dim := 768 } ∧
    parseStats "backend returned no metrics" =
      some { precision := some 0, mapR := some 0
             recallAt := { r1 := some 0, r5 := some 0, r10 := some 0, r100 := some 0 }
             embeddings := "0", dim := 0 } :=
  ⟨fun _ => rfl, fun _ => rfl, by decide, by decide⟩

/-- Claim C5 counterexample: the claim says the label is segment 1 with the
"Class: " or "Label: " PREFIX stripped. On the caption
"My Class: Dog\nSim: 0.5" segment 1 does not start with either prefix, so
the claim predicts the label "My Class: Dog"; the code removes the first
occurrence of "Class: " anywhere, producing "My Dog". On
"Class: \nSim: 0.9" the claim predicts the empty label; the code falls back
to "Unknown". -/
theorem claim_C5_counterexample :
    parseCaption (some "My Class: Dog\nSim: 0.5") = ⟨"My Dog", "0.5"⟩ ∧
    "My Dog" ≠ "My Class: Dog" ∧
    parseCaption (some "Class: \nSim: 0.9") = ⟨"Unknown", "0.9"⟩ ∧
    "Unknown" ≠ "" := by decide

/-- Claim C5 as amended: `parseCaption` never raises; it returns
{Unknown, 0.000} when the input is absent or empty; otherwise the label is
segment 1 with the first occurrence of "Class: " removed and then the first
occurrence of "Label: " removed (anywhere in the segment, not only as a
prefix), defaulting to "Unknown" when the result is empty, and the
similarity is segment 2 with the first occurrence of "Sim: " removed,
defaulting to "0.000" when segment 2 is missing or the result is empty. -/
theorem claim_C5_amended :
    parseCaption none = ⟨"Unknown", "0.000"⟩ ∧
    parseCaption (some "") = ⟨"Unknown", "0.000"⟩ ∧
    parseCaption (some "Class: Sedan\nSim: 0.912") = ⟨"Sedan", "0.912"⟩ ∧
    parseCaption (some "Label: Robin") = ⟨"Robin", "0.000"⟩ ∧
    ∀ c : String,
      parseCaption (some c) =
        if c = "" then ⟨"Unknown", "0.000"⟩
        else ⟨decodeCaptionLabel ((jsSplitNewline c).headD ""),
              decodeCaptionSim (jsSplitNewline c)[1]?⟩ := by
  refine ⟨rfl, by decide, by decide, by decide, fun c => ?_⟩
  by_cases hc : c = ""
  · simp [parseCaption, hc]
  · cases h : (jsSplitNewline c)[1]? <;>
      simp [parseCaption, decodeCaptionLabel, decodeCaptionSim, hc, h]

/-- Claim C1 counterexample: searches n and n+1 are issued in order, the
response to n+1 settles first, the response to n settles last; the final
displayed results are NOT the response to n+1 — `handleSearch` applies every
settled response unconditionally, there is no sequence-number check. -/
theorem claim_C1_counterexample :
    (runTrace initState
      [.searchStart (.ref ⟨none, some "queryA.jpg", none, none⟩),
       .searchStart (.ref ⟨none, some "queryB.jpg", none, none⟩),
       .searchSettle (.ok ([⟨none, some "resB.jpg", none, none⟩], "Found B")),
       .searchSettle (.ok ([⟨none, some "resA.jpg", none, none⟩], "Found A"))]).results
      ≠ [(⟨none, some "resB.jpg", none, none⟩ : GradioImage)] := by decide

/-- Claim C1 as amended: completed search responses are applied to
results/status unconditionally, in settlement order, so the final displayed
results equal the response that settles last; in particular, when the
response to search n settles after the response to search n+1, the final
results and status are those of search n (the stale response overwrites the
newer one). -/
theorem claim_C1_amended (s : AppState) (src1 src2 : Source)
    (d1 d2 : List GradioImage × String) :
    (runTrace s [.searchStart src1, .searchStart src2,
                 .searchSettle (.ok d2), .searchSettle (.ok d1)]).results = d1.1 ∧
    (runTrace s [.searchStart src1, .searchStart src2,
                 .searchSettle (.ok d2), .searchSettle (.ok d1)]).status = d1.2 ∧
    (runTrace s [.searchStart src1, .searchStart src2,
                 .searchSettle (.ok d2), .searchSettle (.ok d1)]).isSearching = false :=
  ⟨rfl, rfl, rfl⟩

/-- Claim C2 counterexample: the configuration is changed while the old
configuration's load is in flight; the old load's response settles after the
new one's. The final metrics are NOT those decoded from the new
configuration's response — `loadResources` applies every settled response
unconditionally, there is no generation check. -/
theorem claim_C2_counterexample :
    (runTrace initState
      [.loadStart, .setDataset "CUB", .loadStart,
       .loadSettle (.ok ("Loaded CUB", "Precision@1: 20%")),
       .examplesSettle (.ok none), .loadFinish,
       .loadSettle (.ok ("Loaded Cars196", "Precision@1: 10%")),
       .examplesSettle (.ok none), .loadFinish]).stats
      ≠ parseStats "Precision@1: 20%" := by decide

/-- Claim C2 as amended: load responses are applied unconditionally on
settlement, so the final status and metrics equal those of the load response
that settles last, even when that response belongs to the superseded
configuration. -/
theorem claim_C2_amended (s : AppState) (d : String) (dNew dOld : String × String) :
    (runTrace s
      [.loadStart, .setDataset d, .loadStart,
       .loadSettle (.ok dNew), .examplesSettle (.ok none), .loadFinish,
       .loadSettle (.ok dOld), .examplesSettle (.ok none), .loadFinish]).stats
      = parseStats dOld.2 ∧
    (runTrace s
      [.loadStart, .setDataset d, .loadStart,
       .loadSettle (.ok dNew), .examplesSettle (.ok none), .loadFinish,
       .loadSettle (.ok dOld), .examplesSettle (.ok none), .loadFinish]).status
      = dOld.1 ∧
    (runTrace s
      [.loadStart, .setDataset d, .loadStart,
       .loadSettle (.ok dNew), .examplesSettle (.ok none), .loadFinish,
       .loadSettle (.ok dOld), .examplesSettle (.ok none), .loadFinish]).isLoading
      = false :=
  ⟨rfl, rfl, rfl⟩

/-- Claim C3 counterexample: three callers invoke the connection getter
before any connection exists and each checks the empty ref before any
connect settles; three establishment attempts are in flight at once, three
are performed in total (not one), and the callers receive three different
handles (10, 20 and 30 — not the same memoized handle). -/
theorem claim_C3_counterexample :
    (cmRun cmInit [.call 0, .call 1, .call 2]).waiting = [0, 1, 2] ∧
    (cmRun cmInit [.call 0, .call 1, .call 2,
                   .resolve 0 10, .resolve 1 20, .resolve 2 30]).attempts = 3 ∧
    (cmRun cmInit [.call 0, .call 1, .call 2,
                   .resolve 0 10, .resolve 1 20, .resolve 2 30]).returned
      = [(0, .ok 10), (1, .ok 20), (2, .ok 30)] ∧
    (3 : Nat) ≠ 1 ∧ (Outcome.ok (10 : Nat)) ≠ .ok 20 := by decide

/-- Claim C3 as amended: a caller that finds the ref populated performs no
establishment attempt and receives the memoized handle, but every caller
that finds the ref empty starts its own establishment attempt (several may
be in flight at once), and each settling attempt stores its own handle,
overwriting the ref. -/
theorem claim_C3_amended (cache : Option Nat) (att : Nat) (w : List Nat)
    (r : List (Nat × Outcome Nat)) (id c : Nat) :
    cmStep ⟨some c, att, w, r⟩ (.call id) = ⟨some c, att, w, r ++ [(id, .ok c)]⟩ ∧
    cmStep ⟨none, att, w, r⟩ (.call id) = ⟨none, att + 1, w ++ [id], r⟩ ∧
    cmStep ⟨cache, att, id :: w, r⟩ (.resolve id c) =
      ⟨some c, att, (id :: w).erase id, r ++ [(id, .ok c)]⟩ := by
  refine ⟨rfl, rfl, ?_⟩
  simp [cmStep]

/-- Claim C8 (confirmed): a failed connection attempt propagates the failure
to its caller and stores nothing (no event ever caches a failed attempt: a
reject never changes the ref), so after a failure the ref is still empty and
a subsequent call performs a fresh establishment attempt; only a successful
attempt is cached. The concrete schedule call-reject-call-resolve shows the
failure returned to caller 0, a second attempt for caller 1, and only the
successful handle cached. -/
theorem claim_C8 (s : CMState) (att : Nat) (w : List Nat)
    (r : List (Nat × Outcome Nat)) (id c : Nat) :
    cmStep ⟨none, att, id :: w, r⟩ (.reject id) =
      ⟨none, att, (id :: w).erase id, r ++ [(id, .err)]⟩ ∧
    (cmStep s (.reject id)).cache = s.cache ∧
    cmStep ⟨none, att, w, r⟩ (.call id) = ⟨none, att + 1, w ++ [id], r⟩ ∧
    cmRun cmInit [.call 0, .reject 0, .call 1, .resolve 1 c] =
      ⟨some c, 2, [], [(0, .err), (1, .ok c)]⟩ := by
  refine ⟨by simp [cmStep], ?_, rfl, rfl⟩
  simp only [cmStep]
  split <;> rfl

/-- Claim C6 counterexample: a failed example refresh does not set the
status to any fixed failure string — `refreshExamples` only logs the error —
so the status after the failure still depends on the state before it: from
two states with different statuses, the two post-failure statuses differ. -/
theorem claim_C6_counterexample :
    (applyEvent { initState with status := "Loaded Cars196" }
      (.examplesSettle .err)).status = "Loaded Cars196" ∧
    (applyEvent { initState with status := "Loaded CUB" }
      (.examplesSettle .err)).status = "Loaded CUB" ∧
    "Loaded Cars196" ≠ "Loaded CUB" := by decide

/-- Claim C6 as amended: a failed search sets status to "Search Failed" and
clears the searching flag; a failed resource load sets status to
"Sync Failed" and clears the loading flag; both leave previously accepted
results, metrics and examples unchanged. A failed example refresh clears its
loading flag but sets no failure status: it leaves all other state,
including the status, unchanged. -/
theorem claim_C6_amended (s : AppState) :
    (applyEvent s (.searchSettle .err)).status = "Search Failed" ∧
    (applyEvent s (.searchSettle .err)).isSearching = false ∧
    (applyEvent s (.searchSettle .err)).results = s.results ∧
    (applyEvent s (.searchSettle .err)).stats = s.stats ∧
    (applyEvent s (.searchSettle .err)).examples = s.examples ∧
    (applyEvent s (.loadSettle .err)).status = "Sync Failed" ∧
    (applyEvent s (.loadSettle .err)).isLoading = false ∧
    (applyEvent s (.loadSettle .err)).results = s.results ∧
    (applyEvent s (.loadSettle .err)).stats = s.stats ∧
    (applyEvent s (.loadSettle .err)).examples = s.examples ∧
    (applyEvent s (.examplesSettle .err)).isExamplesLoading = false ∧
    (applyEvent s (.examplesSettle .err)).status = s.status ∧
    (applyEvent s (.examplesSettle .err)).results = s.results ∧
    (applyEvent s (.examplesSettle .err)).stats = s.stats ∧
    (applyEvent s (.examplesSettle .err)).examples = s.examples :=
  ⟨rfl, rfl, rfl, rfl, rfl, rfl, rfl, rfl, rfl, rfl, rfl, rfl, rfl, rfl, rfl⟩

/-- Claim C7 counterexample: a resource load fails while the state holds the
previous configuration's decoded metrics; after the failure the metrics
field is still present (it still holds the previous metrics), not absent as
the claim requires — the catch block only sets the status. -/
theorem claim_C7_counterexample :
    ((applyEvent { initState with stats := parseStats "Precision@1: 10%" }
      (.loadSettle .err)).stats).isSome = true ∧
    (applyEvent { initState with stats := parseStats "Precision@1: 10%" }
      (.loadSettle .err)).stats = parseStats "Precision@1: 10%" := by decide

/-- Claim C7 as amended: when a resource load fails the controller sets the
status to the fixed message "Sync Failed" and clears the loading flag
(entering Ready), but the metrics field keeps its previous value — it is
absent after the failure only if it was already absent before. -/
theorem claim_C7_amended (s : AppState) :
    (applyEvent s (.loadSettle .err)).status = "Sync Failed" ∧
    (applyEvent s (.loadSettle .err)).isLoading = false ∧
    (applyEvent s (.loadSettle .err)).stats = s.stats :=
  ⟨rfl, rfl, rfl⟩

/-- Claim C9 (confirmed): the `searchStart` segment — the synchronous prefix
of `handleSearch`, executed before its first `await` and hence before the
backend call is issued — sets the active-query preview to the object URL
derived from a raw File/Blob source, or to the resolved image URL of an
image-reference source; the settlement segment never touches the preview, so
the preview is independent of the completion of the backend call. -/
theorem claim_C9 (s : AppState) (img : GradioImage) (b : Nat)
    (out : Outcome (List GradioImage × String)) :
    (applyEvent s (.searchStart (.blob b))).activeQuery = some (createObjectURL b) ∧
    (applyEvent s (.searchStart (.ref img))).activeQuery = some (getImageUrl (some img)) ∧
    (applyEvent s (.searchSettle out)).activeQuery = s.activeQuery := by
  refine ⟨rfl, rfl, ?_⟩
  cases out with
  | ok d => rfl
  | err => rfl
